import Mathlib

/-!
Shallow embedding of the xv6-rust kernel (LENSHOOD/xv6-rust) for checking its
natural-language specification.  Each definition is translated from the Rust
source under `src/kernel/src/`; deviations of the source from the classic xv6
semantics (loop bounds, shadowed variables, struct copies) are embedded exactly
as the Rust code behaves, with comments pointing at the source lines.
-/

namespace Xv6

/-- Bytes per page (`riscv.rs`: `PGSIZE = 4096`). -/
def PGSIZE : Nat := 4096

/-- Valid bit of a PTE (`riscv.rs`: `PTE_V = 1 << 0`). -/
def PTE_V : Nat := 1

/-- Readable bit of a PTE (`riscv.rs`: `PTE_R = 1 << 1`). -/
def PTE_R : Nat := 2

/-- Writable bit of a PTE (`riscv.rs`: `PTE_W = 1 << 2`). -/
def PTE_W : Nat := 4

/-- User bit of a PTE (`riscv.rs`: `PTE_U = 1 << 4`). -/
def PTE_U : Nat := 16

/-- Modelled from the spec: `MAXOPBLOCKS = 10`.  The constant lives in the
kernel's `param.rs`, which is declared by `main.rs` but absent from `src/`;
spec section 6 fixes `MAXOPBLOCKS=10`. -/
def MAXOPBLOCKS : Nat := 10

/-- Modelled from the spec: `LOGSIZE = 3 * MAXOPBLOCKS` (spec section 6);
`param.rs` is absent from `src/`. -/
def LOGSIZE : Nat := 3 * MAXOPBLOCKS

/-- PGROUNDDOWN from `riscv.rs`: `a & !(PGSIZE-1)`.  For the power of two
`PGSIZE` this bit mask equals dropping the page offset. -/
def PGROUNDDOWN (a : Nat) : Nat := a - a % PGSIZE

/-- PA2PTE from `riscv.rs`: `(pa >> 12) << 10`. -/
def PA2PTE (pa : Nat) : Nat := (pa / 4096) * 1024

/-- PTE2PA from `riscv.rs`: `(pte >> 10) << 12`. -/
def PTE2PA (pte : Nat) : Nat := (pte / 1024) * 4096

/-- PTE_FLAGS from `riscv.rs`: `pte & 0x3FF`. -/
def PTE_FLAGS (pte : Nat) : Nat := pte % 1024

/-! ### Redo log (`log.rs`) -/

/-- In-memory log state (`log.rs`, `struct Log` and `struct LogHeader`):
`lh.n`, the header's block-number slots, the count of executing FS system
calls, the committing flag (an `i32` used as a boolean in the source) and
`size = sb.nlog`.  The header slot array `[u32; LOGSIZE]` is modelled as a
total function from slot index to block number. -/
structure LogState where
  n : Nat
  block : Nat → Nat
  outstanding : Nat
  committing : Bool
  size : Nat

/-- Slot index computed by log_write's scan (`log.rs:142-148`): `idx` starts
at `0`, the loop over `0..n` sets it and breaks at the first slot holding
`b.blockno`, so after a scan with no hit `idx` is still `0` (not `n` as in
the C original). -/
def logWriteIdx (st : LogState) (blockno : Nat) : Nat :=
  ((List.range st.n).find? (fun i => st.block i = blockno)).getD 0

/-- Slot array after `LOG.lh.block[idx] = b.blockno` (`log.rs:150`). -/
def logWriteBlock (st : LogState) (blockno : Nat) : Nat → Nat :=
  fun j => if j = logWriteIdx st blockno then blockno else st.block j

/-- log_write from `log.rs` lines 131-158: the two `panic!` exits are
modelled as `Except.error` of the panic tag; otherwise `blockno` is stored
at slot `logWriteIdx`, and only when that index equals `n` does the source
call `bpin(b)` and increment `n`.  The returned flag records whether
`bpin` was called. -/
def log_write (st : LogState) (blockno : Nat) : Except String (LogState × Bool) :=
  if st.n ≥ LOGSIZE ∨ st.n ≥ st.size - 1 then
    Except.error "too big a transaction"
  else if st.outstanding < 1 then
    Except.error "log_write outside of trans"
  else if logWriteIdx st blockno = st.n then
    Except.ok ({ st with block := logWriteBlock st blockno, n := st.n + 1 }, true)
  else
    Except.ok ({ st with block := logWriteBlock st blockno }, false)

/-- Transitions of the log state taken with the log lock held
(`log.rs`: `begin_op`, `log_write`, `end_op` and the `commit` epilogue of
`end_op`).  `begin_op` proceeds past its sleep loop exactly when
`committing` is false and `n + (outstanding+1)*MAXOPBLOCKS ≤ LOGSIZE`;
`end_op` decrements the `u32` counter (wrapping) and raises `committing`
when it reaches zero; the commit epilogue clears `n` and `committing`. -/
inductive LogStep : LogState → LogState → Prop where
  | beginOp (s : LogState) (hc : s.committing = false)
      (hr : s.n + (s.outstanding + 1) * MAXOPBLOCKS ≤ LOGSIZE) :
      LogStep s { s with outstanding := (s.outstanding + 1) % 2 ^ 32 }
  | logWriteStep (s s' : LogState) (blockno : Nat) (pinned : Bool)
      (h : log_write s blockno = Except.ok (s', pinned)) :
      LogStep s s'
  | endOp (s : LogState) (hc : s.committing = false) :
      LogStep s { s with
        outstanding := (s.outstanding + (2 ^ 32 - 1)) % 2 ^ 32,
        committing := (s.outstanding + (2 ^ 32 - 1)) % 2 ^ 32 = 0 }
  | commitEnd (s : LogState) (hc : s.committing = true) :
      LogStep s { s with n := 0, committing := false }

/-- Concrete log state used by the C1 and C8 evaluation theorems: one slot
holding block 5, one outstanding operation, log size 32. -/
def logC1 : LogState :=
  { n := 1
    block := fun i => if i = 0 then 5 else 0
    outstanding := 1
    committing := false
    size := 32 }

/-- C1: log_write on a buffer whose block number is absent from the header is
claimed to append at slot `header.n`, increment `n`, and pin the buffer.  The
source (`log.rs:142-154`) leaves `idx = 0` when the scan finds no match, so it
overwrites slot 0, leaves `n` unchanged and never pins: writing block 7 into
a header holding only block 5 yields slots `(7, 0)`, `n = 1`, no pin. -/
theorem log_write_miss_overwrites_slot0 :
    (log_write logC1 7).map (fun r => (r.1.n, r.1.block 0, r.1.block 1, r.2))
      = Except.ok (1, 7, 0, false) := by
  rfl

/-- C8: every log transition preserves `header.n ≤ LOGSIZE`.  `begin_op`
increments `outstanding` only under `committing = false` and the pessimistic
reservation `n + (outstanding+1)*MAXOPBLOCKS ≤ LOGSIZE`; `log_write` refuses
(`too big a transaction`) unless `n < LOGSIZE`, and grows `n` by at most one;
`end_op` and the commit epilogue never grow `n`. -/
theorem logStep_preserves_header_bound (s s' : LogState)
    (hstep : LogStep s s') (hinv : s.n ≤ LOGSIZE) : s'.n ≤ LOGSIZE := by
  cases hstep with
  | beginOp hc hr => simpa using hinv
  | logWriteStep s' blockno pinned h =>
    unfold log_write at h
    split at h
    · simp at h
    · split at h
      · simp at h
      · rename_i hbig hout
        split at h
        · cases h
          push_neg at hbig
          exact hbig.1
        · cases h
          exact hinv
  | endOp hc => simpa using hinv
  | commitEnd hc => simp

/-- Witness for C8: a begin_op step from the concrete state `logC1` keeps the
header bound. -/
theorem logStep_preserves_header_bound_witness :
    ({ logC1 with outstanding := (logC1.outstanding + 1) % 2 ^ 32 } : LogState).n
      ≤ LOGSIZE :=
  logStep_preserves_header_bound logC1 _
    (LogStep.beginOp logC1 rfl (by decide)) (by decide)

/-! ### Buffer cache (`bio.rs`, `buf.rs`) -/

/-- One node of the buffer cache's doubly linked LRU list (`buf.rs`): the
reference count and the `prev`/`next` links, modelled as arena indices with
`none` for a null link.  Index 0 of a heap stands for the sentinel
`DUMMY_HEAD`; `head.next` is most recent, `head.prev` is least recent. -/
structure BufNode where
  refcnt : Nat
  prev : Option Nat
  next : Option Nat
  deriving DecidableEq

/-- Heap update: write the node at arena index `i`. -/
def hupd (h : Nat → BufNode) (i : Nat) (f : BufNode → BufNode) : Nat → BufNode :=
  fun j => if j = i then f (h j) else h j

/-- brelse from `bio.rs:151-175`, after the sleep-lock release: decrement
`refcnt`; if it reached zero, unlink `b` and splice it at the MRU head.  The
source takes `let mut head = *BCACHE.head.as_ptr()` — a by-value copy of the
sentinel node, since `Buf` is `Copy` — so its final `head.next = Some(b)`
writes only that local copy; the heap updates below mirror exactly the
writes that go through real pointers.  `unwrap()` of a link is modelled by
`Option.getD 0` (links are `Some` in every reachable cache state). -/
def brelse (h0 : Nat → BufNode) (b : Nat) : Nat → BufNode :=
  let h1 := hupd h0 b (fun nd => { nd with refcnt := nd.refcnt - 1 })
  if (h1 b).refcnt = 0 then
    let bn := h1 b
    let h2 := hupd h1 (bn.next.getD 0) (fun nd => { nd with prev := bn.prev })
    let h3 := hupd h2 (bn.prev.getD 0) (fun nd => { nd with next := bn.next })
    let headCopy := h3 0
    let h4 := hupd h3 b (fun nd => { nd with next := headCopy.next, prev := some 0 })
    let h5 := hupd h4 (headCopy.next.getD 0) (fun nd => { nd with prev := some b })
    h5
  else h1

/-- Outcome of bget's miss path (`bio.rs:100-125`). -/
inductive BgetMiss where
  | victim (i : Nat)
  | panicNoBufs
  | loopsForever
  deriving DecidableEq

/-- Recycle loop of bget (`bio.rs:102-125`): every iteration re-reads
`BCACHE.head.as_ptr()` and takes `head.prev` — always the tail-most buffer —
then copies it by value.  If the list is empty it breaks out to
`panic!("bget: no buffers")`; if the tail's `refcnt` is zero it returns the
tail; otherwise the trailing `b = *b.prev...` writes only the local copy, so
the next iteration examines the same tail again and the loop never
terminates. -/
def bgetVictim (h : Nat → BufNode) : BgetMiss :=
  match (h 0).prev with
  | none => BgetMiss.panicNoBufs
  | some t =>
    if t = 0 then BgetMiss.panicNoBufs
    else if (h t).refcnt = 0 then BgetMiss.victim t
    else BgetMiss.loopsForever

/-- Two-buffer cache in which buffer 2 (the LRU tail) is being released:
sentinel 0, MRU list 1, 2. -/
def heapRel : Nat → BufNode :=
  fun i =>
    if i = 0 then { refcnt := 0, prev := some 2, next := some 1 }
    else if i = 1 then { refcnt := 1, prev := some 0, next := some 2 }
    else { refcnt := 1, prev := some 1, next := some 0 }

/-- Two-buffer cache for the miss path: buffer 1 has `refcnt = 0` but the
tail-most buffer 2 is referenced. -/
def heapVict : Nat → BufNode :=
  fun i =>
    if i = 0 then { refcnt := 0, prev := some 2, next := some 1 }
    else if i = 1 then { refcnt := 0, prev := some 0, next := some 2 }
    else { refcnt := 1, prev := some 1, next := some 0 }

/-- C6: releasing buffer 2 of `heapRel` drops its refcnt to zero, but the
sentinel's `next` still names buffer 1 — the released buffer is NOT the MRU
head, because `head.next = Some(b)` wrote a by-value copy of the sentinel;
and on a miss over `heapVict` the recycle loop hangs instead of selecting
buffer 1, the tail-most buffer with `refcnt = 0`, because the scan re-reads
the tail (buffer 2, refcnt 1) forever. -/
theorem brelse_and_bget_lru_violations :
    ((brelse heapRel 2) 2).refcnt = 0 ∧
    ((brelse heapRel 2) 0).next = some 1 ∧
    bgetVictim heapVict = BgetMiss.loopsForever ∧
    (heapVict 2).refcnt ≠ 0 ∧ (heapVict 1).refcnt = 0 := by
  decide

/-! ### Pipes (`pipe.rs`) -/

/-- Ring capacity (`pipe.rs`: `PIPESIZE = 512`). -/
def PIPESIZE : Nat := 512

/-- Pipe state (`pipe.rs`, `struct Pipe`): the byte ring as a function from
ring index, monotonic read/write counters and the two open flags. -/
structure PipeState where
  data : Nat → Nat
  nread : Nat
  nwrite : Nat
  readopen : Bool
  writeopen : Bool

/-- Iterations of Pipe::write's loop (`pipe.rs:42-62`): at each entry, if the
read end is closed or the writer is killed, return −1; if the ring is full
the source sleeps (modelled `none`); otherwise one byte is fetched via
copyin from user index `i` (copyin modelled as always succeeding), stored at
ring index `nwrite % PIPESIZE`, and `nwrite` and `i` advance.  The first
argument counts the remaining loop iterations `n - i`. -/
def pipeWriteGo (killed : Bool) (src : Nat → Nat) :
    Nat → PipeState → Nat → Option (PipeState × Int)
  | 0, p, i => some (p, Int.ofNat i)
  | k + 1, p, i =>
    if ¬ p.readopen ∨ killed then some (p, -1)
    else if p.nwrite = p.nread + PIPESIZE then none
    else
      pipeWriteGo killed src k
        { p with
          data := fun j => if j = p.nwrite % PIPESIZE then src i else p.data j,
          nwrite := p.nwrite + 1 } (i + 1)

/-- Pipe::write from `pipe.rs:36-66`: runs the loop with `i = 0` and returns
`i` (the number of bytes written) on normal exit. -/
def pipeWrite (killed : Bool) (p : PipeState) (src : Nat → Nat) (n : Nat) :
    Option (PipeState × Int) :=
  pipeWriteGo killed src n p 0

/-- For-loop of Pipe::read (`pipe.rs:83-95`): the loop variable `i` shadows
the outer `i`; each iteration breaks when the ring is empty, otherwise first
increments `nread` and THEN fetches `data[nread % PIPESIZE]` — the byte at
ring index (c+1) mod PIPESIZE for counter value c — copying it out to user
index `i` (copyout modelled as always succeeding).  The dead `ret = i` of
the source is not carried. -/
def pipeReadGo : Nat → Nat → PipeState → (Nat → Nat) → PipeState × (Nat → Nat)
  | 0, _, p, dst => (p, dst)
  | k + 1, i, p, dst =>
    if p.nread = p.nwrite then (p, dst)
    else
      let p' := { p with nread := p.nread + 1 }
      pipeReadGo k (i + 1) p'
        (fun j => if j = i then p'.data (p'.nread % PIPESIZE) else dst j)

/-- Pipe::read from `pipe.rs:68-100`: while the ring is empty and the write
end is open, a killed reader returns −1 and otherwise the reader sleeps
(modelled `none`); then the for-loop copies bytes out, and the function
returns the OUTER `i`, which the shadowing for-loop never modified — the
return value is always 0 on this path. -/
def pipeRead (killed : Bool) (p : PipeState) (dst : Nat → Nat) (n : Nat) :
    Option (PipeState × (Nat → Nat) × Int) :=
  if p.nread = p.nwrite ∧ p.writeopen then
    (if killed then some (p, dst, -1) else none)
  else
    let r := pipeReadGo n 0 p dst
    some (r.1, r.2, 0)

/-- Pipe::close of the write end (`pipe.rs:17-34`): clears `writeopen` and
wakes readers; the free when both ends are closed is not modelled. -/
def pipeCloseWrite (p : PipeState) : PipeState := { p with writeopen := false }

/-- Freshly allocated pipe: zero ring and counters, both ends open. -/
def pipeEmpty : PipeState :=
  { data := fun _ => 0, nread := 0, nwrite := 0, readopen := true, writeopen := true }

/-- User buffer holding "ab" (97, 98). -/
def abSrc : Nat → Nat := fun i => if i = 0 then 97 else if i = 1 then 98 else 0

/-- C3: writing "ab" into an empty pipe stores 97 at ring index 0 and 98 at
index 1 and returns 2 (the write half of the claim holds); but the read that
follows (after the writer closes) consumes both counters while delivering
`data[1]` then `data[2]` — the user buffer receives (98, 0), not (97, 98) —
and returns the shadowed outer `i = 0`, not 2; a further read of the drained
pipe returns 0. -/
theorem pipe_read_wrong_bytes_and_return :
    (pipeWrite false pipeEmpty abSrc 2).map
        (fun r => (r.1.nwrite, r.1.data 0, r.1.data 1, r.2)) = some (2, 97, 98, 2) ∧
    ((pipeWrite false pipeEmpty abSrc 2).bind (fun r =>
        pipeRead false (pipeCloseWrite r.1) (fun _ => 0) 8)).map
        (fun r => (r.1.nread, r.2.1 0, r.2.1 1, r.2.2)) = some (2, 98, 0, 0) ∧
    ((pipeWrite false pipeEmpty abSrc 2).bind (fun r =>
        (pipeRead false (pipeCloseWrite r.1) (fun _ => 0) 8).bind (fun r2 =>
          pipeRead false r2.1 (fun _ => 0) 8))).map (fun r3 => r3.2.2) = some 0 := by
  refine ⟨rfl, rfl, rfl⟩

/-! ### Processes and sleep locks (`proc.rs`, `sleeplock.rs`) -/

/-- Process states (`proc.rs`, `enum Procstate`). -/
inductive Procstate where
  | UNUSED
  | USED
  | SLEEPING
  | RUNNABLE
  | RUNNING
  | ZOMBIE
  deriving DecidableEq

/-- Slice of per-process state relevant here (`proc.rs`, `struct Proc`):
scheduling state, sleep channel (a raw address), killed flag, pid. -/
structure PProc where
  state : Procstate
  chan : Option Nat
  killed : Nat
  pid : Nat
  deriving DecidableEq

/-- wakeup from `proc.rs:509-519`: every process other than the caller whose
state is SLEEPING and whose channel equals `chan` becomes RUNNABLE.
Channels are raw addresses compared for equality; the list stands for the
`PROCS` entries other than the calling process. -/
def wakeup (chan : Nat) (procs : List PProc) : List PProc :=
  procs.map fun p =>
    if p.state = Procstate.SLEEPING ∧ p.chan = some chan
    then { p with state := Procstate.RUNNABLE } else p

/-- Sleep-lock fields behind the inner spinlock (`sleeplock.rs`). -/
structure SleeplockSt where
  locked : Nat
  pid : Nat
  deriving DecidableEq

/-- Channel a blocked acquire_sleep waits on (`sleeplock.rs:29`):
`sleep(self as *const Sleeplock, ...)` passes the sleep-lock's own
address. -/
def acquireSleepChan (lockAddr : Nat) : Nat := lockAddr

/-- release_sleep from `sleeplock.rs:37-43`: clears `locked` and `pid`, then
calls `wakeup(&self)`.  Since `self : &mut Sleeplock`, the argument `&self`
has type `&&mut Sleeplock`; the generic `wakeup<T>(chan: &T)` is therefore
instantiated at `T = &mut Sleeplock` and receives the stack address of
release_sleep's own `self` variable.  `selfSlotAddr` is that stack address;
it differs from the lock's address, because the slot holds a pointer to the
lock and is a distinct live object. -/
def releaseSleep (selfSlotAddr : Nat) (lk : SleeplockSt) (procs : List PProc) :
    SleeplockSt × List PProc :=
  ({ lk with locked := 0, pid := 0 }, wakeup selfSlotAddr procs)

/-- A process blocked in acquire_sleep on the lock at address 4096. -/
def sleeplockWaiter : PProc :=
  { state := Procstate.SLEEPING, chan := some (acquireSleepChan 4096),
    killed := 0, pid := 7 }

/-- C4: with the sleep lock at address 4096 and release_sleep's local `self`
slot at address 8192, the channel passed to wakeup (8192) differs from the
channel the waiter slept on (4096), so the waiter stays SLEEPING instead of
becoming RUNNABLE. -/
theorem release_sleep_misses_waiters :
    (releaseSleep 8192 { locked := 1, pid := 7 } [sleeplockWaiter]).2
        = [sleeplockWaiter] ∧
    sleeplockWaiter.state = Procstate.SLEEPING ∧
    wakeup (acquireSleepChan 4096) [sleeplockWaiter]
        = [{ sleeplockWaiter with state := Procstate.RUNNABLE }] := by
  decide

/-- Static fallback process (`proc.rs:243`): `DUMMY_PROC = Proc::default()`
has state UNUSED, pid 0 and no channel. -/
def DUMMY_PROC : PProc :=
  { state := Procstate.UNUSED, chan := none, killed := 0, pid := 0 }

/-- myproc from `proc.rs:246-252`: under push_off/pop_off it takes the cpu
slot's current process pointer if present, and otherwise a pointer to the
static `DUMMY_PROC`; the final `as_mut().unwrap()` therefore never sees
null.  The cpu's `proc` field is the argument. -/
def myproc (cpuProc : Option PProc) : PProc :=
  cpuProc.getD DUMMY_PROC

/-- C10: myproc is total at its interface: with a process installed on the
cpu it returns that process, and on a cpu slot holding no process it returns
the static dummy process, whose state is UNUSED and whose pid is 0 — never a
null pointer or a failure. -/
theorem myproc_total (c : Option PProc) :
    (∀ p, c = some p → myproc c = p) ∧
    (c = none →
      myproc c = DUMMY_PROC ∧ (myproc c).state = Procstate.UNUSED ∧
        (myproc c).pid = 0) := by
  constructor
  · intro p hp
    subst hp
    rfl
  · intro hn
    subst hn
    exact ⟨rfl, rfl, rfl⟩

/-- Witness for C10: on a cpu with no current process, myproc returns the
dummy process with state UNUSED and pid 0. -/
theorem myproc_total_witness :
    myproc none = DUMMY_PROC ∧ (myproc none).state = Procstate.UNUSED ∧
      (myproc none).pid = 0 :=
  (myproc_total none).2 rfl

/-! ### Virtual memory: user and kernel copies (`vm.rs`) -/

/-- memmove (`string.rs`) acting on byte stores modelled as functions:
copies `n` bytes from `src` at offset `sOff` into `dst` at offset `dOff`. -/
def memmoveF (dst : Nat → Nat) (dOff : Nat) (src : Nat → Nat) (sOff n : Nat) :
    Nat → Nat :=
  fun a => if dOff ≤ a ∧ a < dOff + n then src (sOff + (a - dOff)) else dst a

/-- Loop of copyin (`vm.rs:343-360`), one step per iteration of
`while len > 0`: round `srcva` down to `va0`, translate through the page
table (`walkaddr`, given as a function from page address to frame address;
failure returns −1, modelled `none`), copy `n = min(PGSIZE - (srcva - va0),
len)` bytes from the frame into the kernel buffer at offset `dstPtr` — the
source computes `dst.add(n)` but DISCARDS the result, so `dstPtr` does not
advance between iterations — then `len -= n` and `srcva = va0 + PGSIZE`.
The fuel argument bounds the iteration count; `copyin` passes `len`, which
suffices because every iteration removes at least one byte. -/
def copyinGo (walk : Nat → Option Nat) (mem : Nat → Nat) :
    Nat → (Nat → Nat) → Nat → Nat → Nat → Option (Nat → Nat)
  | 0, dst, _dstPtr, _srcva, len => if len = 0 then some dst else none
  | fuel + 1, dst, dstPtr, srcva, len =>
    if len = 0 then some dst
    else
      match walk (PGROUNDDOWN srcva) with
      | none => none
      | some pa0 =>
        let off := srcva - PGROUNDDOWN srcva
        let n := min (PGSIZE - off) len
        copyinGo walk mem fuel (memmoveF dst dstPtr mem (pa0 + off) n)
          dstPtr (PGROUNDDOWN srcva + PGSIZE) (len - n)

/-- copyin from `vm.rs:336-362`: copy `len` bytes to the kernel buffer `dst`
(at pointer offset `dstPtr`) from user virtual address `srcva`. -/
def copyin (walk : Nat → Option Nat) (mem : Nat → Nat) (dst : Nat → Nat)
    (dstPtr srcva len : Nat) : Option (Nat → Nat) :=
  copyinGo walk mem len dst dstPtr srcva len

/-- Modelled from the spec: the loop of `copy_out(pt, user_va, src, len)`.
The kernel calls `crate::vm::copyout` from `pipe.rs`, `proc.rs`, `exec.rs`
and `fs/fs.rs`, but its definition is not among the sources under `src/`;
spec section 4.3 specifies that it "walks the user page table page by page,
bounces through the kernel alias of each target frame".  Each chunk of
`min(PGSIZE - offset, len)` bytes is copied from the kernel buffer into the
mapped frame, and both the kernel pointer and the user address advance. -/
def copyoutGo (walk : Nat → Option Nat) (src : Nat → Nat) :
    Nat → (Nat → Nat) → Nat → Nat → Nat → Option (Nat → Nat)
  | 0, mem, _srcPtr, _dstva, len => if len = 0 then some mem else none
  | fuel + 1, mem, srcPtr, dstva, len =>
    if len = 0 then some mem
    else
      match walk (PGROUNDDOWN dstva) with
      | none => none
      | some pa0 =>
        let off := dstva - PGROUNDDOWN dstva
        let n := min (PGSIZE - off) len
        copyoutGo walk src fuel (memmoveF mem (pa0 + off) src srcPtr n)
          (srcPtr + n) (PGROUNDDOWN dstva + PGSIZE) (len - n)

/-- Modelled from the spec: `copy_out(pt, user_va, src, len)` — see
`copyoutGo`. -/
def copyout (walk : Nat → Option Nat) (mem : Nat → Nat) (src : Nat → Nat)
    (srcPtr dstva len : Nat) : Option (Nat → Nat) :=
  copyoutGo walk src len mem srcPtr dstva len

/-- Identity mapping of the user pages at 0 and 4096 (each page's frame
address equals its page address); all other pages unmapped. -/
def walkTwoPages : Nat → Option Nat :=
  fun p => if p = 0 ∨ p = 4096 then some p else none

/-- Kernel source buffer holding the bytes (1, 2). -/
def src12 : Nat → Nat := fun i => if i = 0 then 1 else if i = 1 then 2 else 0

/-- C5: copy_out of the two bytes (1, 2) to user address 4095 — a range
spanning the two mapped pages — followed by copy_in of the same range does
NOT return the source bytes: because copyin discards the result of
`dst.add(n)`, every page chunk lands at kernel offset 0, so the destination
buffer ends as (2, 0) instead of (1, 2). -/
theorem copy_roundtrip_loses_bytes :
    ((copyout walkTwoPages (fun _ => 0) src12 0 4095 2).bind (fun m =>
        copyin walkTwoPages m (fun _ => 0) 0 4095 2)).map (fun d => (d 0, d 1))
      = some (2, 0) ∧ (src12 0, src12 1) = (1, 2) :=
  ⟨rfl, rfl⟩

/-! ### Virtual memory: unmap (`vm.rs`) -/

/-- Addresses visited by uvmunmap's loop (`vm.rs:126`): the Rust iterator
`(va..npages * PGSIZE).step_by(PGSIZE)` — its upper bound is
`npages * PGSIZE`, NOT `va + npages * PGSIZE`. -/
def uvmunmapAddrs (va npages : Nat) : List Nat :=
  List.range' va ((npages * PGSIZE - va + (PGSIZE - 1)) / PGSIZE) PGSIZE

/-- Body of uvmunmap over the visited addresses (`vm.rs:127-144`).  A page
table is a function from page address to its leaf PTE (the result of
`walk(pt, a, 0)`, `none` when an intermediate table is missing).  For each
address: a missing PTE panics `uvmunmap: walk`; a PTE with
`pte & PTE_V == 1` — i.e. a VALID pte; the test is inverted relative to the
C original — panics `uvmunmap: not mapped`; a PTE whose flags are exactly
`PTE_V` panics `uvmunmap: not a leaf`; otherwise the frame is freed when
requested and the PTE is cleared.  Since `PTE_V = 1`, `pte & PTE_V` is
`pte % 2`.  Returns the page table and the freed frame addresses. -/
def uvmunmapGo (doFree : Bool) :
    List Nat → (Nat → Option Nat) → List Nat →
      Except String ((Nat → Option Nat) × List Nat)
  | [], pt, freed => Except.ok (pt, freed)
  | a :: rest, pt, freed =>
    match pt a with
    | none => Except.error "uvmunmap: walk"
    | some pte =>
      if pte % 2 = 1 then Except.error "uvmunmap: not mapped"
      else if PTE_FLAGS pte = PTE_V then Except.error "uvmunmap: not a leaf"
      else
        uvmunmapGo doFree rest (fun x => if x = a then some 0 else pt x)
          (freed ++ if doFree then [PTE2PA pte] else [])

/-- uvmunmap from `vm.rs:121-146`: panics unless `va` is page-aligned, then
runs the loop over `uvmunmapAddrs va npages`. -/
def uvmunmap (pt : Nat → Option Nat) (va npages : Nat) (doFree : Bool) :
    Except String ((Nat → Option Nat) × List Nat) :=
  if va % PGSIZE ≠ 0 then Except.error "uvmunmap: not aligned"
  else uvmunmapGo doFree (uvmunmapAddrs va npages) pt []

/-- A valid user leaf PTE pointing at frame 8192. -/
def leafPte : Nat := PA2PTE 8192 + PTE_U + PTE_R + PTE_V

/-- Page table mapping only page 0, with a valid user leaf. -/
def ptPage0 : Nat → Option Nat :=
  fun a => if a = 0 then some leafPte else none

/-- Page table mapping only page 4096, with a valid user leaf. -/
def ptPage4096 : Nat → Option Nat :=
  fun a => if a = 4096 then some leafPte else none

/-- C7: on a page table whose single page 0 is mapped by a valid user leaf,
`unmap(pt, 0, 1, false)` panics `uvmunmap: not mapped` — the validity test
is inverted, firing exactly when the PTE IS valid; and with the mapped page
at 4096, `unmap(pt, 4096, 1, false)` visits no address at all (the loop runs
over `va..npages*PGSIZE`, an empty range) and leaves the PTE uncleared. -/
theorem uvmunmap_panics_on_valid_mapping :
    uvmunmap ptPage0 0 1 false = Except.error "uvmunmap: not mapped" ∧
    (uvmunmap ptPage4096 4096 1 false).map (fun r => (r.1 4096, r.2))
      = Except.ok (some leafPte, []) ∧
    leafPte % 2 = PTE_V :=
  ⟨rfl, rfl, rfl⟩

/-! ### Exec error path (`exec.rs`) -/

/-- exec's shared error path `goto_bad` (`exec.rs:169-180`).  The source
guard is `if page_table.is_none() { proc_freepagetable(page_table.unwrap(),
sz) }`: when the new page table is absent (every failure before or at
`proc_pagetable`, e.g. a short or bad ELF header) the `unwrap()` of `None`
panics, and when the page table IS present the guard is false, so
`proc_freepagetable` is never called.  The result on the non-panic path
records (return value, whether the new page table was freed, whether the
inode was unlock-put and the transaction closed by `end_op`). -/
def gotoBad (pageTable : Option Nat) (_sz : Nat) (ip : Option Nat) :
    Except String (Int × Bool × Bool) :=
  match pageTable with
  | none => Except.error "called Option::unwrap() on a None value"
  | some _ => Except.ok (-1, false, ip.isSome)

/-- C2: exec's failure handling does not leave the caller unharmed: invoked
without a page table — as for a short or invalid ELF header,
`exec.rs:43-53` — goto_bad panics by unwrapping `None` instead of returning
−1; invoked with the freshly allocated page table — as for the later
failures — it returns −1 WITHOUT freeing the table (the `is_none` guard is
inverted), leaking it rather than freeing it as the claim states. -/
theorem gotoBad_panics_or_leaks :
    gotoBad none 0 (some 1)
        = Except.error "called Option::unwrap() on a None value" ∧
    gotoBad (some 7) 0 (some 1) = Except.ok (-1, false, true) :=
  ⟨rfl, rfl⟩

/-! ### Inode allocation (`fs/fs.rs`) -/

/-- Inodes per block (`fs/mod.rs`: `IPB = BSIZE / size_of::<DINode>()` with
`BSIZE = 4096`), where `size_of::<DINode>() = 64` bytes: an i16 file type
(the spec's on-disk inode layout; `stat.rs` is absent from `src/`), three
further i16 fields, a u32 size and 13 u32 block addresses. -/
def IPB : Nat := 64

/-- Scan of ialloc (`fs/fs.rs:527-543`) over the inode numbers
`1..sb.ninodes`, given the on-disk type of each inode.  The byte range the
source takes for inode `inum` is `bp.data[64*(inum % IPB) ..
64*((inum + 1) % IPB)]`; its end index wraps to 0 when
`inum % IPB = IPB - 1`, making the slice bounds invalid — a Rust index
panic.  Otherwise an inode whose type is 0 is claimed (memset, type write,
`log_write`, `brelse`) and its number returned via `iget`; if the loop
finishes with no hit, the source prints `ialloc: no inodes` and returns
`None`. -/
def iallocScan (dtype : Nat → Nat) : List Nat → Except String (Option Nat)
  | [] => Except.ok none
  | inum :: rest =>
    if inum % IPB = IPB - 1 then Except.error "slice index out of range"
    else if dtype inum = 0 then Except.ok (some inum)
    else iallocScan dtype rest

/-- ialloc from `fs/fs.rs:526-546`: `for inum in 1..sb.ninodes`. -/
def ialloc (ninodes : Nat) (dtype : Nat → Nat) : Except String (Option Nat) :=
  iallocScan dtype (List.range' 1 (ninodes - 1))

/-- Counterexample to C9: on a device with 4 inode slots, all in use, ialloc
completes its scan and returns `None` (after printing `ialloc: no inodes`) —
an ordinary error return that its callers surface to user space as −1 — and
does not panic. -/
theorem ialloc_exhaustion_returns_none :
    ialloc 4 (fun _ => 1) = Except.ok none :=
  rfl

/-- C9 as amended: whenever the scanned inode numbers hold no free inode
(type 0) and avoid the slice-boundary defect (`inum % IPB = IPB - 1`),
ialloc returns `Except.ok none` — an error return surfaced to the caller —
rather than panicking. -/
theorem ialloc_exhaustion_no_panic (ninodes : Nat) (dtype : Nat → Nat)
    (h : ∀ inum ∈ List.range' 1 (ninodes - 1),
      dtype inum ≠ 0 ∧ inum % IPB ≠ IPB - 1) :
    ialloc ninodes dtype = Except.ok none := by
  unfold ialloc
  generalize hl : List.range' 1 (ninodes - 1) = l at h
  clear hl
  induction l with
  | nil => rfl
  | cons a t ih =>
    have ha := h a (List.mem_cons_self a t)
    unfold iallocScan
    rw [if_neg ha.2, if_neg ha.1]
    exact ih (fun i hi => h i (List.mem_cons_of_mem a hi))

/-- Witness for the amended C9 theorem: 4 inode slots, every one in use. -/
theorem ialloc_exhaustion_no_panic_witness :
    ialloc 4 (fun _ => 1) = Except.ok none :=
  ialloc_exhaustion_no_panic 4 (fun _ => 1) (by decide)

end Xv6
